import Mathlib

set_option autoImplicit false

namespace Themis

/-!
Shallow embedding of JJApplication/Themis.

The allocator lives in `internal/port` (`PortManager`); the registry in
`internal/storage` (`AppPortStorage`).  Go `int` ports become `Int`.

External effects are abstracted as follows.
* The OS network stack: two oracles `tcp udp : Int → Bool`, the success of
  the TCP listen and of the UDP resolve-and-bind in `checkPortBySocket`.
* `math/rand`: a stream `rands : Nat → Nat` of draws; `rand.Intn n` panics
  for `n ≤ 0` and otherwise returns a value in `[0, n)`, modelled as
  `rands i % n` for the `i`-th draw of a call.
* A Go panic is `none` in an `Option` result.
* `time.Now().Unix()` is an explicit `ts : Int` argument.
* The backing JSON file is a `FileState` value threaded in and out of the
  operations that touch it.

Go maps are modelled as association lists (`map[string]int`) and
duplicate-free lists (`map[int]bool` used as a set), with the map
operations defined below.
-/

/-- PortManager (internal/port): the configured range and the set of ports
handed out.  `usedPorts : map[int]bool` is a duplicate-free list. -/
structure PortManager where
  minPort : Int
  maxPort : Int
  usedPorts : List Int
  deriving Repr, DecidableEq

/-- NewPortManager: stores the bounds unvalidated, with an empty used set. -/
def NewPortManager (minPort maxPort : Int) : PortManager :=
  { minPort := minPort, maxPort := maxPort, usedPorts := [] }

/-- Membership test in the used-ports set (the `usedPorts[port]` map read). -/
def usedHas : List Int → Int → Bool
  | [], _ => false
  | q :: rest, p => if q = p then true else usedHas rest p

/-- Map insert for the used set: `usedPorts[port] = true`. -/
def setInsert (l : List Int) (p : Int) : List Int :=
  if usedHas l p then l else p :: l

/-- Map delete for the used set: `delete(usedPorts, port)`. -/
def setRemove : List Int → Int → List Int
  | [], _ => []
  | q :: rest, p => if q = p then setRemove rest p else q :: setRemove rest p

/-- `rand.Intn n`: panics (`none`) when `n ≤ 0`, otherwise a value in
`[0, n)` determined by the abstract draw `r`. -/
def randIntn (n : Int) (r : Nat) : Option Int :=
  if n ≤ 0 then none else some ((r : Int) % n)

/-- checkPortBySocket: listen on TCP, then resolve and listen on UDP, each
released immediately; `true` only when both probes succeed.  The oracles
`tcp` and `udp` abstract the OS outcome of the two probes. -/
def checkPortBySocket (tcp udp : Int → Bool) (port : Int) : Bool :=
  tcp port && udp port

/-- IsPortAvailable: range check, then used-set membership (taken under an
RLock that is released again before anything else happens), then the live
OS probe. -/
def IsPortAvailable (pm : PortManager) (tcp udp : Int → Bool) (port : Int) : Bool :=
  if port < pm.minPort || port > pm.maxPort then false
  else if usedHas pm.usedPorts port then false
  else checkPortBySocket tcp udp port

/-- markPortAsUsed: `usedPorts[port] = true` under the write lock. -/
def markPortAsUsed (pm : PortManager) (port : Int) : PortManager :=
  { pm with usedPorts := setInsert pm.usedPorts port }

/-- ReleasePort: `delete(usedPorts, port)` under the write lock. -/
def ReleasePort (pm : PortManager) (port : Int) : PortManager :=
  { pm with usedPorts := setRemove pm.usedPorts port }

/-- Errors of the allocator, one constructor per `fmt.Errorf` site. -/
inductive PortError where
  | noAvailablePort
  | countNonPositive
  | partialResult (found requested : Nat)
  | invalidRange (minPort maxPort : Int)
  deriving Repr, DecidableEq

/-- The retry loop of GetRandomPort: `i` indexes the next random draw,
`fuel` is the remaining attempts (100 at the top-level call).  A `none`
result is a panic inside `rand.Intn`. -/
def getRandomPortAux (tcp udp : Int → Bool) (rands : Nat → Nat)
    (pm : PortManager) : Nat → Nat → Option (Except PortError Int × PortManager)
  | _, 0 => some (.error .noAvailablePort, pm)
  | i, fuel + 1 =>
    match randIntn (pm.maxPort - pm.minPort + 1) (rands i) with
    | none => none
    | some r =>
      let port := r + pm.minPort
      if IsPortAvailable pm tcp udp port then
        some (.ok port, markPortAsUsed pm port)
      else
        getRandomPortAux tcp udp rands pm (i + 1) fuel

/-- GetRandomPort: up to 100 random candidates; mark and return the first
available one, else the exhaustion error. -/
def GetRandomPort (pm : PortManager) (tcp udp : Int → Bool) (rands : Nat → Nat) :
    Option (Except PortError Int × PortManager) :=
  getRandomPortAux tcp udp rands pm 0 100

/-- The batch loop of GetRandomPorts: runs while attempts remain (`fuel`,
`count * 100` at the top) and fewer than `count` ports were found; a
candidate that is available and not yet in `ports` is marked and appended. -/
def getRandomPortsAux (count : Nat) (tcp udp : Int → Bool) (rands : Nat → Nat) :
    PortManager → List Int → Nat → Nat → Option (List Int × Option PortError × PortManager)
  | pm, ports, _, 0 =>
      some (ports,
        if ports.length < count then some (.partialResult ports.length count) else none,
        pm)
  | pm, ports, i, fuel + 1 =>
      if ports.length < count then
        match randIntn (pm.maxPort - pm.minPort + 1) (rands i) with
        | none => none
        | some r =>
          let port := r + pm.minPort
          if IsPortAvailable pm tcp udp port then
            if usedHas ports port then
              getRandomPortsAux count tcp udp rands pm ports (i + 1) fuel
            else
              getRandomPortsAux count tcp udp rands (markPortAsUsed pm port)
                (ports ++ [port]) (i + 1) fuel
          else
            getRandomPortsAux count tcp udp rands pm ports (i + 1) fuel
      else
        some (ports, none, pm)

/-- GetRandomPorts: rejects `count ≤ 0`, else runs the batch loop with a
budget of `count * 100` attempts; a shortfall is returned as the partial
list together with the found-versus-requested error. -/
def GetRandomPorts (pm : PortManager) (count : Int) (tcp udp : Int → Bool)
    (rands : Nat → Nat) : Option (List Int × Option PortError × PortManager) :=
  if count ≤ 0 then some ([], some .countNonPositive, pm)
  else getRandomPortsAux count.toNat tcp udp rands pm [] 0 (count.toNat * 100)

/-- SetPortRange: rejects non-positive bounds or an inverted range leaving
the manager untouched, otherwise replaces both bounds. -/
def SetPortRange (pm : PortManager) (mn mx : Int) : Option PortError × PortManager :=
  if mn ≤ 0 || mx ≤ 0 || mn > mx then
    (some (.invalidRange mn mx), pm)
  else
    (none, { pm with minPort := mn, maxPort := mx })

/-- GetPortRange: snapshot read of both bounds. -/
def GetPortRange (pm : PortManager) : Int × Int :=
  (pm.minPort, pm.maxPort)

/-!
Interleaving model for concurrent allocation (internal/port).

In the code, one allocation attempt touches the shared `usedPorts` map in
two separate lock acquisitions: `IsPortAvailable` reads membership under an
RLock and releases it, and only later — after the lock-free OS probe —
`markPortAsUsed` takes the write lock.  `threadStep` makes exactly those
two lock acquisitions the atomic steps of a thread running one attempt at a
fixed candidate port (folding the range check and the OS probe into the
read step only makes the model coarser, i.e. admits fewer interleavings
than the code).
-/

/-- The local state of one thread running a single GetRandomPort attempt at
candidate `candidate`: `observed` is the stored result of the
IsPortAvailable step once taken, `returned` the port handed back once the
mark step ran. -/
structure ThreadState where
  candidate : Int
  observed : Option Bool
  returned : Option Int
  deriving Repr, DecidableEq

/-- One atomic step of a thread: first the availability check (one RLock
acquisition plus the lock-free probe), then — if it observed the port
available — the separate write-lock acquisition that marks the port and
lets the call return it. -/
def threadStep (pm0 : PortManager) (tcp udp : Int → Bool)
    (used : List Int) (t : ThreadState) : List Int × ThreadState :=
  match t.observed with
  | none =>
      let avail := IsPortAvailable { pm0 with usedPorts := used } tcp udp t.candidate
      (used, { t with observed := some avail })
  | some true =>
      if t.returned.isNone then
        (setInsert used t.candidate, { t with returned := some t.candidate })
      else (used, t)
  | some false => (used, t)

/-- Two threads racing over the shared used-ports set. -/
structure AllocRace where
  used : List Int
  t1 : ThreadState
  t2 : ThreadState
  deriving Repr, DecidableEq

/-- Schedule one step of thread 1 (`true`) or thread 2 (`false`). -/
def raceStep (pm0 : PortManager) (tcp udp : Int → Bool)
    (s : AllocRace) (who : Bool) : AllocRace :=
  if who then
    let r := threadStep pm0 tcp udp s.used s.t1
    { s with used := r.1, t1 := r.2 }
  else
    let r := threadStep pm0 tcp udp s.used s.t2
    { s with used := r.1, t2 := r.2 }

/-- Run a schedule of interleaved steps. -/
def raceRun (pm0 : PortManager) (tcp udp : Int → Bool)
    (sched : List Bool) (s : AllocRace) : AllocRace :=
  sched.foldl (raceStep pm0 tcp udp) s

/-!
Registry (internal/storage).
-/

/-- Errors of AppPortStorage, one constructor per `fmt.Errorf` site. -/
inductive StorageError where
  | emptyName
  | invalidPort (port : Int)
  | notFound (name : String)
  deriving Repr, DecidableEq

/-- Failure modes of LoadFromFile that the model keeps. -/
inductive LoadError where
  | parseFailure
  deriving Repr, DecidableEq

/-- Lookup in the `map[string]int` association list. -/
def mapLookup : List (String × Int) → String → Option Int
  | [], _ => none
  | (k, v) :: rest, key => if k = key then some v else mapLookup rest key

/-- Insert-or-overwrite in the `map[string]int` association list. -/
def mapInsert : List (String × Int) → String → Int → List (String × Int)
  | [], key, v => [(key, v)]
  | (k, w) :: rest, key, v =>
      if k = key then (k, v) :: rest else (k, w) :: mapInsert rest key v

/-- Key removal in the `map[string]int` association list. -/
def mapErase : List (String × Int) → String → List (String × Int)
  | [], _ => []
  | (k, w) :: rest, key =>
      if k = key then mapErase rest key else (k, w) :: mapErase rest key

/-- PortData, the JSON snapshot `{app_ports, timestamp, version}`.  The
map field is an `Option` so that a JSON `null` or absent `app_ports`
decodes to `none`. -/
structure PortData where
  appPorts : Option (List (String × Int))
  timestamp : Int
  version : String
  deriving Repr, DecidableEq

/-- The backing file: absent, present but zero-length, a parsed snapshot,
or bytes that do not parse. -/
inductive FileState where
  | absent
  | empty
  | snapshot (d : PortData)
  | corrupt
  deriving Repr, DecidableEq

/-- AppPortStorage: the in-memory map plus, for the lifecycle model, the
number of background flush goroutines started and not stopped.  The data
file path and sync interval play no role in the logic; the file content is
threaded explicitly. -/
structure AppPortStorage where
  appPorts : List (String × Int)
  syncLoops : Nat
  deriving Repr, DecidableEq

/-- NewAppPortStorage: empty map, no background sync running. -/
def NewAppPortStorage : AppPortStorage :=
  { appPorts := [], syncLoops := 0 }

/-- saveToFile: copies the map under an RLock, serializes
`{app_ports, timestamp, version: "1.0"}` and overwrites the file.  `ts`
abstracts `time.Now().Unix()`; disk-write failure is not modelled. -/
def saveToFile (s : AppPortStorage) (ts : Int) : FileState :=
  .snapshot { appPorts := some s.appPorts, timestamp := ts, version := "1.0" }

/-- LoadFromFile: an absent file is bootstrapped by writing the current
(for a fresh instance: empty) map; an empty file is accepted leaving the
map as is; a snapshot replaces the map wholesale, a `null` map field
becoming the empty map; unparsable bytes are an error. -/
def LoadFromFile (s : AppPortStorage) (file : FileState) (ts : Int) :
    Except LoadError (AppPortStorage × FileState) :=
  match file with
  | .absent => .ok (s, saveToFile s ts)
  | .empty => .ok (s, file)
  | .snapshot d => .ok ({ s with appPorts := d.appPorts.getD [] }, file)
  | .corrupt => .error .parseFailure

/-- SetAppPort: validates the name and port, then writes the map entry;
no flush happens here. -/
def SetAppPort (s : AppPortStorage) (appName : String) (port : Int) :
    Except StorageError AppPortStorage :=
  if appName = "" then .error .emptyName
  else if port ≤ 0 || port > 65535 then .error (.invalidPort port)
  else .ok { s with appPorts := mapInsert s.appPorts appName port }

/-- GetAppPort: validates the name, then reads the map entry. -/
def GetAppPort (s : AppPortStorage) (appName : String) : Except StorageError Int :=
  if appName = "" then .error .emptyName
  else
    match mapLookup s.appPorts appName with
    | some port => .ok port
    | none => .error (.notFound appName)

/-- DeleteAppPort: validates the name, requires the entry to exist, removes
it and immediately flushes the new map to the file before returning. -/
def DeleteAppPort (s : AppPortStorage) (appName : String) (ts : Int) :
    Except StorageError (AppPortStorage × FileState) :=
  if appName = "" then .error .emptyName
  else
    match mapLookup s.appPorts appName with
    | none => .error (.notFound appName)
    | some _ =>
        let t : AppPortStorage := { s with appPorts := mapErase s.appPorts appName }
        .ok (t, saveToFile t ts)

/-- HasApp: membership test on the map. -/
def HasApp (s : AppPortStorage) (appName : String) : Bool :=
  (mapLookup s.appPorts appName).isSome

/-- GetAllApps: defensive copy of the map. -/
def GetAllApps (s : AppPortStorage) : List (String × Int) :=
  s.appPorts

/-- SyncToFile: the manual synchronous flush, identical to saveToFile. -/
def SyncToFile (s : AppPortStorage) (ts : Int) : FileState :=
  saveToFile s ts

/-- StartAutoSync: unconditionally does `wg.Add(1)` and spawns one more
periodic flush goroutine — the code has no guard against a double start. -/
def StartAutoSync (s : AppPortStorage) : AppPortStorage :=
  { s with syncLoops := s.syncLoops + 1 }

/-- StopAutoSync: closes the stop channel, waits for every loop to exit,
and performs one final flush. -/
def StopAutoSync (s : AppPortStorage) (ts : Int) : AppPortStorage × FileState :=
  ({ s with syncLoops := 0 }, saveToFile s ts)

/-! Basic lemmas about the used-ports set and the random draw. -/

theorem usedHas_eq_false_iff (l : List Int) (p : Int) :
    usedHas l p = false ↔ p ∉ l := by
  induction l with
  | nil => simp [usedHas]
  | cons q rest ih =>
    unfold usedHas
    by_cases hq : q = p
    · subst hq; simp
    · rw [if_neg hq]
      simp only [List.mem_cons, ih]
      constructor
      · intro h hmem
        rcases hmem with h1 | h1
        · exact hq h1.symm
        · exact h h1
      · intro h
        exact fun h1 => h (Or.inr h1)

theorem usedHas_setInsert_self (l : List Int) (p : Int) :
    usedHas (setInsert l p) p = true := by
  unfold setInsert
  by_cases h : usedHas l p = true
  · rw [if_pos h]; exact h
  · rw [if_neg h]; unfold usedHas; rw [if_pos rfl]

theorem setRemove_of_not_has (l : List Int) (p : Int) (h : usedHas l p = false) :
    setRemove l p = l := by
  induction l with
  | nil => rfl
  | cons q rest ih =>
    unfold usedHas at h
    by_cases hq : q = p
    · rw [if_pos hq] at h; simp at h
    · rw [if_neg hq] at h
      unfold setRemove
      rw [if_neg hq, ih h]

theorem ReleasePort_markPortAsUsed (pm : PortManager) (p : Int)
    (h : usedHas pm.usedPorts p = false) :
    ReleasePort (markPortAsUsed pm p) p = pm := by
  unfold ReleasePort markPortAsUsed setInsert
  rw [if_neg (by rw [h]; exact Bool.false_ne_true)]
  show ({ pm with usedPorts := setRemove (p :: pm.usedPorts) p } : PortManager) = pm
  unfold setRemove
  rw [if_pos rfl, setRemove_of_not_has _ _ h]

theorem markPortAsUsed_minPort (pm : PortManager) (p : Int) :
    (markPortAsUsed pm p).minPort = pm.minPort := rfl

theorem markPortAsUsed_maxPort (pm : PortManager) (p : Int) :
    (markPortAsUsed pm p).maxPort = pm.maxPort := rfl

theorem randIntn_of_pos {n : Int} (hn : 0 < n) (r : Nat) :
    randIntn n r = some ((r : Int) % n) := by
  unfold randIntn
  rw [if_neg (not_le.mpr hn)]

theorem randIntn_bounds {n : Int} (hn : 0 < n) (r : Nat) :
    0 ≤ (r : Int) % n ∧ (r : Int) % n < n :=
  ⟨Int.emod_nonneg _ (ne_of_gt hn), Int.emod_lt_of_pos _ hn⟩

theorem usedHas_false_of_available (pm : PortManager) (tcp udp : Int → Bool) (p : Int)
    (h : IsPortAvailable pm tcp udp p = true) : usedHas pm.usedPorts p = false := by
  unfold IsPortAvailable at h
  by_cases h1 : p < pm.minPort || p > pm.maxPort
  · rw [if_pos h1] at h; simp at h
  · rw [if_neg h1] at h
    cases hb : usedHas pm.usedPorts p with
    | false => rfl
    | true => rw [if_pos hb] at h; simp at h

theorem IsPortAvailable_marked (pm : PortManager) (tcp udp : Int → Bool) (p : Int) :
    IsPortAvailable (markPortAsUsed pm p) tcp udp p = false := by
  unfold IsPortAvailable
  by_cases h1 : p < (markPortAsUsed pm p).minPort || p > (markPortAsUsed pm p).maxPort
  · rw [if_pos h1]
  · rw [if_neg h1]
    have : usedHas (markPortAsUsed pm p).usedPorts p = true := usedHas_setInsert_self _ _
    rw [if_pos this]

/-- C3: IsPortAvailable fails closed on every port outside the range and on
every reserved port, in both cases for every OS oracle (no probe is
consulted); on an in-range unreserved port it returns true exactly when
both the TCP and the UDP probe succeed. -/
theorem C3_IsPortAvailable (pm : PortManager) (tcp udp : Int → Bool) :
    (∀ p : Int, (p < pm.minPort ∨ p > pm.maxPort) →
        ∀ tcp' udp' : Int → Bool, IsPortAvailable pm tcp' udp' p = false) ∧
    (∀ p : Int, usedHas pm.usedPorts p = true →
        ∀ tcp' udp' : Int → Bool, IsPortAvailable pm tcp' udp' p = false) ∧
    (∀ p : Int, pm.minPort ≤ p → p ≤ pm.maxPort → usedHas pm.usedPorts p = false →
        (IsPortAvailable pm tcp udp p = true ↔ tcp p = true ∧ udp p = true)) := by
  refine ⟨?_, ?_, ?_⟩
  · intro p h tcp' udp'
    unfold IsPortAvailable
    rw [if_pos]
    simp only [Bool.or_eq_true, decide_eq_true_eq]
    exact h
  · intro p h tcp' udp'
    unfold IsPortAvailable
    by_cases h1 : p < pm.minPort || p > pm.maxPort
    · rw [if_pos h1]
    · rw [if_neg h1, if_pos h]
  · intro p h1 h2 h3
    unfold IsPortAvailable checkPortBySocket
    rw [if_neg, if_neg (by rw [h3]; exact Bool.false_ne_true)]
    · simp
    · simp only [Bool.or_eq_true, decide_eq_true_eq]
      omega

/-- Witness for C3 at the manager with range 10..20 and port 12 reserved:
port 25 is out of range, port 12 is reserved, and the availability of the
unreserved in-range port 15 is exactly the oracles' verdict. -/
theorem C3_IsPortAvailable_witness :
    IsPortAvailable ⟨10, 20, [12]⟩ (fun _ => false) (fun _ => false) 25 = false ∧
    IsPortAvailable ⟨10, 20, [12]⟩ (fun _ => false) (fun _ => false) 12 = false ∧
    (IsPortAvailable ⟨10, 20, [12]⟩ (fun _ => true) (fun _ => true) 15 = true ↔
      (fun _ : Int => true) 15 = true ∧ (fun _ : Int => true) 15 = true) :=
  ⟨(C3_IsPortAvailable ⟨10, 20, [12]⟩ (fun _ => true) (fun _ => true)).1 25
      (Or.inr (by decide)) (fun _ => false) (fun _ => false),
   (C3_IsPortAvailable ⟨10, 20, [12]⟩ (fun _ => true) (fun _ => true)).2.1 12
      (by decide) (fun _ => false) (fun _ => false),
   (C3_IsPortAvailable ⟨10, 20, [12]⟩ (fun _ => true) (fun _ => true)).2.2 15
      (by decide) (by decide) (by decide)⟩

/-- C8: SetPortRange rejects a non-positive bound or an inverted range with
the invalid-range error and leaves the manager exactly as it was; valid
bounds replace the active range and succeed. -/
theorem C8_SetPortRange (pm : PortManager) :
    (∀ mn mx : Int, (mn ≤ 0 ∨ mx ≤ 0 ∨ mn > mx) →
        SetPortRange pm mn mx = (some (.invalidRange mn mx), pm)) ∧
    (∀ mn mx : Int, 0 < mn → 0 < mx → mn ≤ mx →
        SetPortRange pm mn mx = (none, { pm with minPort := mn, maxPort := mx })) := by
  constructor
  · intro mn mx h
    unfold SetPortRange
    rw [if_pos]
    simp only [Bool.or_eq_true, decide_eq_true_eq]
    omega
  · intro mn mx h1 h2 h3
    unfold SetPortRange
    rw [if_neg]
    simp only [Bool.or_eq_true, decide_eq_true_eq]
    omega

/-- Witness for C8 at the manager with range 10..20: `SetPortRange 0 100`
fails leaving the range as it was, `SetPortRange 3000 4000` replaces it. -/
theorem C8_SetPortRange_witness :
    SetPortRange (NewPortManager 10 20) 0 100 =
      (some (.invalidRange 0 100), NewPortManager 10 20) ∧
    SetPortRange (NewPortManager 10 20) 3000 4000 =
      (none, { NewPortManager 10 20 with minPort := 3000, maxPort := 4000 }) :=
  ⟨(C8_SetPortRange (NewPortManager 10 20)).1 0 100 (Or.inl (by decide)),
   (C8_SetPortRange (NewPortManager 10 20)).2 3000 4000
      (by decide) (by decide) (by decide)⟩

/-- C2: refuted on the code.  With range 5..5, port 5 free at the OS and
nothing reserved, the schedule that runs both availability checks before
either mark step makes both concurrent GetRandomPort attempts observe
port 5 as unreserved and both mark and return it — possible precisely
because the membership check's RLock is released before markPortAsUsed
takes the write lock, i.e. check and mark are separate lock acquisitions. -/
theorem C2_race_counterexample :
    (raceRun (NewPortManager 5 5) (fun _ => true) (fun _ => true)
        [true, false, true, false]
        { used := [],
          t1 := { candidate := 5, observed := none, returned := none },
          t2 := { candidate := 5, observed := none, returned := none } }).t1.returned
        = some 5 ∧
    (raceRun (NewPortManager 5 5) (fun _ => true) (fun _ => true)
        [true, false, true, false]
        { used := [],
          t1 := { candidate := 5, observed := none, returned := none },
          t2 := { candidate := 5, observed := none, returned := none } }).t2.returned
        = some 5 := by
  constructor <;> rfl

/-- C9: refuted on the code.  StartAutoSync has no guard: a second call on
a registry already running its background sync starts a second periodic
flush loop (two loops active), instead of rejecting or no-opping. -/
theorem C9_double_start_counterexample :
    (StartAutoSync (StartAutoSync NewAppPortStorage)).syncLoops = 2 := rfl

/-! The GetRandomPort retry loop. -/

theorem getRandomPortAux_spec (tcp udp : Int → Bool) (rands : Nat → Nat)
    (pm : PortManager) (h : pm.minPort ≤ pm.maxPort) :
    ∀ fuel i, ∃ res pm',
      getRandomPortAux tcp udp rands pm i fuel = some (res, pm') ∧
      ((∃ p : Int, res = .ok p ∧ pm.minPort ≤ p ∧ p ≤ pm.maxPort ∧
          IsPortAvailable pm tcp udp p = true ∧ pm' = markPortAsUsed pm p) ∨
        (res = .error .noAvailablePort ∧ pm' = pm)) := by
  intro fuel
  induction fuel with
  | zero =>
    intro i
    exact ⟨.error .noAvailablePort, pm, rfl, Or.inr ⟨rfl, rfl⟩⟩
  | succ fuel ih =>
    intro i
    have hn : 0 < pm.maxPort - pm.minPort + 1 := by omega
    obtain ⟨hb1, hb2⟩ := randIntn_bounds hn (rands i)
    unfold getRandomPortAux
    rw [randIntn_of_pos hn]
    by_cases hav :
        IsPortAvailable pm tcp udp ((rands i : Int) % (pm.maxPort - pm.minPort + 1) + pm.minPort) = true
    · refine ⟨.ok ((rands i : Int) % (pm.maxPort - pm.minPort + 1) + pm.minPort),
        markPortAsUsed pm ((rands i : Int) % (pm.maxPort - pm.minPort + 1) + pm.minPort),
        ?_, Or.inl ⟨_, rfl, by omega, by omega, hav, rfl⟩⟩
      simp only [if_pos hav]
    · simpa only [if_neg hav] using ih (i + 1)

theorem getRandomPortAux_congr (tcp udp : Int → Bool) (pm : PortManager) :
    ∀ fuel i (rands rands' : Nat → Nat),
      (∀ j, j < i + fuel → rands j = rands' j) →
      getRandomPortAux tcp udp rands pm i fuel =
        getRandomPortAux tcp udp rands' pm i fuel := by
  intro fuel
  induction fuel with
  | zero => intro i r r' _; rfl
  | succ fuel ih =>
    intro i r r' h
    have hi : r i = r' i := h i (by omega)
    unfold getRandomPortAux
    rw [hi]
    cases randIntn (pm.maxPort - pm.minPort + 1) (r' i) with
    | none => rfl
    | some v =>
      simp only
      by_cases hav : IsPortAvailable pm tcp udp (v + pm.minPort) = true
      · rw [if_pos hav, if_pos hav]
      · rw [if_neg hav, if_neg hav]
        exact ih (i + 1) r r' fun j hj => h j (by omega)

/-- C1: GetRandomPort consults at most its first 100 random draws (the
result is unchanged under any modification of the stream beyond index 99);
on success it returns a port inside the range that IsPortAvailable accepted
in the state the selection saw, already marked reserved in the returned
manager — so IsPortAvailable rejects it from then on — and ReleasePort on
it restores the original manager; with no candidate accepted it returns
the exhaustion error and no port, the manager unchanged. -/
theorem C1_GetRandomPort (pm : PortManager) (tcp udp : Int → Bool)
    (rands : Nat → Nat) (h : pm.minPort ≤ pm.maxPort) :
    (∀ rands' : Nat → Nat, (∀ j, j < 100 → rands j = rands' j) →
        GetRandomPort pm tcp udp rands = GetRandomPort pm tcp udp rands') ∧
    ∃ res pm', GetRandomPort pm tcp udp rands = some (res, pm') ∧
      ((∃ p : Int, res = .ok p ∧ pm.minPort ≤ p ∧ p ≤ pm.maxPort ∧
          IsPortAvailable pm tcp udp p = true ∧
          pm' = markPortAsUsed pm p ∧
          IsPortAvailable pm' tcp udp p = false ∧
          ReleasePort pm' p = pm) ∨
        (res = .error .noAvailablePort ∧ pm' = pm)) := by
  constructor
  · intro rands' hpre
    exact getRandomPortAux_congr tcp udp pm 100 0 rands rands' fun j hj => hpre j (by omega)
  · obtain ⟨res, pm', heq, hcase⟩ := getRandomPortAux_spec tcp udp rands pm h 100 0
    refine ⟨res, pm', heq, ?_⟩
    rcases hcase with ⟨p, hres, hp1, hp2, hav, hpm'⟩ | hfail
    · refine Or.inl ⟨p, hres, hp1, hp2, hav, hpm', ?_, ?_⟩
      · rw [hpm']
        exact IsPortAvailable_marked pm tcp udp p
      · rw [hpm']
        exact ReleasePort_markPortAsUsed pm p (usedHas_false_of_available pm tcp udp p hav)
    · exact Or.inr hfail

/-- Witness for C1 at the manager with range 10..20, all ports OS-free and
the constant-zero draw stream. -/
theorem C1_GetRandomPort_witness :
    (∀ rands' : Nat → Nat, (∀ j, j < 100 → (fun _ => 0) j = rands' j) →
        GetRandomPort (NewPortManager 10 20) (fun _ => true) (fun _ => true) (fun _ => 0) =
          GetRandomPort (NewPortManager 10 20) (fun _ => true) (fun _ => true) rands') ∧
    ∃ res pm',
      GetRandomPort (NewPortManager 10 20) (fun _ => true) (fun _ => true) (fun _ => 0) =
        some (res, pm') ∧
      ((∃ p : Int, res = .ok p ∧
          (NewPortManager 10 20).minPort ≤ p ∧ p ≤ (NewPortManager 10 20).maxPort ∧
          IsPortAvailable (NewPortManager 10 20) (fun _ => true) (fun _ => true) p = true ∧
          pm' = markPortAsUsed (NewPortManager 10 20) p ∧
          IsPortAvailable pm' (fun _ => true) (fun _ => true) p = false ∧
          ReleasePort pm' p = NewPortManager 10 20) ∨
        (res = .error .noAvailablePort ∧ pm' = NewPortManager 10 20)) :=
  C1_GetRandomPort (NewPortManager 10 20) (fun _ => true) (fun _ => true)
    (fun _ => 0) (by decide)

/-! The GetRandomPorts batch loop. -/

theorem getRandomPortsAux_spec (count : Nat) (tcp udp : Int → Bool) (rands : Nat → Nat) :
    ∀ fuel pm ports i, pm.minPort ≤ pm.maxPort → ports.Nodup → ports.length ≤ count →
      ∃ res err pm',
        getRandomPortsAux count tcp udp rands pm ports i fuel = some (res, err, pm') ∧
        res.Nodup ∧ res.length ≤ count ∧
        err = (if res.length < count then
                 some (.partialResult res.length count) else none) := by
  intro fuel
  induction fuel with
  | zero =>
    intro pm ports i hr hnd hlen
    exact ⟨ports,
      if ports.length < count then some (.partialResult ports.length count) else none,
      pm, rfl, hnd, hlen, rfl⟩
  | succ fuel ih =>
    intro pm ports i hr hnd hlen
    unfold getRandomPortsAux
    by_cases hc : ports.length < count
    · rw [if_pos hc]
      have hn : 0 < pm.maxPort - pm.minPort + 1 := by omega
      rw [randIntn_of_pos hn]
      simp only
      by_cases hav : IsPortAvailable pm tcp udp
          ((rands i : Int) % (pm.maxPort - pm.minPort + 1) + pm.minPort) = true
      · rw [if_pos hav]
        by_cases hdup :
            usedHas ports ((rands i : Int) % (pm.maxPort - pm.minPort + 1) + pm.minPort) = true
        · rw [if_pos hdup]
          exact ih pm ports (i + 1) hr hnd hlen
        · rw [if_neg hdup]
          have hmem :
              ((rands i : Int) % (pm.maxPort - pm.minPort + 1) + pm.minPort) ∉ ports :=
            (usedHas_eq_false_iff _ _).mp (Bool.eq_false_iff.mpr hdup)
          apply ih (markPortAsUsed pm _) (ports ++ [_]) (i + 1)
          · rw [markPortAsUsed_minPort, markPortAsUsed_maxPort]
            exact hr
          · refine List.nodup_append.mpr ⟨hnd, List.nodup_singleton _, ?_⟩
            intro a ha hb
            rw [List.mem_singleton] at hb
            subst hb
            exact hmem ha
          · simp only [List.length_append, List.length_singleton]
            omega
      · rw [if_neg hav]
        exact ih pm ports (i + 1) hr hnd hlen
    · rw [if_neg hc]
      exact ⟨ports, none, pm, rfl, hnd, by omega, by rw [if_neg hc]⟩

theorem getRandomPortsAux_congr (count : Nat) (tcp udp : Int → Bool) :
    ∀ fuel pm ports i (rands rands' : Nat → Nat),
      (∀ j, j < i + fuel → rands j = rands' j) →
      getRandomPortsAux count tcp udp rands pm ports i fuel =
        getRandomPortsAux count tcp udp rands' pm ports i fuel := by
  intro fuel
  induction fuel with
  | zero => intro pm ports i r r' _; rfl
  | succ fuel ih =>
    intro pm ports i r r' h
    have hi : r i = r' i := h i (by omega)
    unfold getRandomPortsAux
    by_cases hc : ports.length < count
    · rw [if_pos hc, if_pos hc, hi]
      cases randIntn (pm.maxPort - pm.minPort + 1) (r' i) with
      | none => rfl
      | some v =>
        simp only
        by_cases hav : IsPortAvailable pm tcp udp (v + pm.minPort) = true
        · rw [if_pos hav, if_pos hav]
          by_cases hdup : usedHas ports (v + pm.minPort) = true
          · rw [if_pos hdup, if_pos hdup]
            exact ih pm ports (i + 1) r r' fun j hj => h j (by omega)
          · rw [if_neg hdup, if_neg hdup]
            exact ih (markPortAsUsed pm (v + pm.minPort)) (ports ++ [v + pm.minPort])
              (i + 1) r r' fun j hj => h j (by omega)
        · rw [if_neg hav, if_neg hav]
          exact ih pm ports (i + 1) r r' fun j hj => h j (by omega)
    · rw [if_neg hc, if_neg hc]

/-- C4: GetRandomPorts with a positive count consults at most its first
`count * 100` random draws; it always yields a duplicate-free list of at
most `count` ports, and exactly when fewer than `count` were found the
partial list is returned together with the found-versus-requested error. -/
theorem C4_GetRandomPorts (pm : PortManager) (tcp udp : Int → Bool)
    (rands : Nat → Nat) (count : Int)
    (h : pm.minPort ≤ pm.maxPort) (hcount : 1 ≤ count) :
    (∀ rands' : Nat → Nat, (∀ j, j < count.toNat * 100 → rands j = rands' j) →
        GetRandomPorts pm count tcp udp rands = GetRandomPorts pm count tcp udp rands') ∧
    ∃ ports err pm',
      GetRandomPorts pm count tcp udp rands = some (ports, err, pm') ∧
      ports.Nodup ∧ ports.length ≤ count.toNat ∧
      err = (if ports.length < count.toNat then
               some (.partialResult ports.length count.toNat) else none) := by
  have hc0 : ¬ count ≤ 0 := by omega
  constructor
  · intro rands' hpre
    unfold GetRandomPorts
    rw [if_neg hc0, if_neg hc0]
    exact getRandomPortsAux_congr count.toNat tcp udp (count.toNat * 100) pm [] 0
      rands rands' fun j hj => hpre j (by omega)
  · unfold GetRandomPorts
    rw [if_neg hc0]
    exact getRandomPortsAux_spec count.toNat tcp udp rands (count.toNat * 100) pm [] 0
      h List.nodup_nil (by simp)

/-- Witness for C4 at the manager with range 10..11, all ports OS-free,
count 2 and the identity draw stream. -/
theorem C4_GetRandomPorts_witness :
    (∀ rands' : Nat → Nat, (∀ j, j < (2 : Int).toNat * 100 → (fun i => i) j = rands' j) →
        GetRandomPorts (NewPortManager 10 11) 2 (fun _ => true) (fun _ => true) (fun i => i) =
          GetRandomPorts (NewPortManager 10 11) 2 (fun _ => true) (fun _ => true) rands') ∧
    ∃ ports err pm',
      GetRandomPorts (NewPortManager 10 11) 2 (fun _ => true) (fun _ => true) (fun i => i) =
        some (ports, err, pm') ∧
      ports.Nodup ∧ ports.length ≤ (2 : Int).toNat ∧
      err = (if ports.length < (2 : Int).toNat then
               some (.partialResult ports.length (2 : Int).toNat) else none) :=
  C4_GetRandomPorts (NewPortManager 10 11) (fun _ => true) (fun _ => true)
    (fun i => i) 2 (by decide) (by decide)

/-! Panic behaviour on an inverted range (claim C10). -/

theorem getRandomPortAux_panic (tcp udp : Int → Bool) (rands : Nat → Nat)
    (pm : PortManager) (h : pm.maxPort < pm.minPort) (i fuel : Nat) :
    getRandomPortAux tcp udp rands pm i (fuel + 1) = none := by
  unfold getRandomPortAux randIntn
  rw [if_pos (show pm.maxPort - pm.minPort + 1 ≤ 0 by omega)]

theorem getRandomPortsAux_panic (count : Nat) (tcp udp : Int → Bool) (rands : Nat → Nat)
    (pm : PortManager) (h : pm.maxPort < pm.minPort) (ports : List Int) (i fuel : Nat)
    (hc : ports.length < count) :
    getRandomPortsAux count tcp udp rands pm ports i (fuel + 1) = none := by
  unfold getRandomPortsAux randIntn
  rw [if_pos hc, if_pos (show pm.maxPort - pm.minPort + 1 ≤ 0 by omega)]

/-- C10: NewPortManager stores any bounds unvalidated; on a manager whose
range is well formed neither allocation entry point ever panics, while on
an inverted range both GetRandomPort and (for a positive count)
GetRandomPorts panic inside the random draw over a non-positive interval
instead of returning an error. -/
theorem C10_range_precondition (tcp udp : Int → Bool) (rands : Nat → Nat) (count : Int) :
    (∀ mn mx : Int, NewPortManager mn mx =
        { minPort := mn, maxPort := mx, usedPorts := [] }) ∧
    (∀ pm : PortManager, pm.minPort ≤ pm.maxPort →
        (GetRandomPort pm tcp udp rands).isSome = true ∧
        (GetRandomPorts pm count tcp udp rands).isSome = true) ∧
    (∀ pm : PortManager, pm.maxPort < pm.minPort →
        GetRandomPort pm tcp udp rands = none ∧
        (1 ≤ count → GetRandomPorts pm count tcp udp rands = none)) := by
  refine ⟨fun mn mx => rfl, ?_, ?_⟩
  · intro pm h
    constructor
    · obtain ⟨res, pm', heq, _⟩ := getRandomPortAux_spec tcp udp rands pm h 100 0
      unfold GetRandomPort
      rw [heq]
      rfl
    · unfold GetRandomPorts
      by_cases hc : count ≤ 0
      · rw [if_pos hc]
        rfl
      · rw [if_neg hc]
        obtain ⟨ports, err, pm', heq, _⟩ :=
          getRandomPortsAux_spec count.toNat tcp udp rands (count.toNat * 100) pm [] 0
            h List.nodup_nil (by simp)
        rw [heq]
        rfl
  · intro pm h
    constructor
    · show getRandomPortAux tcp udp rands pm 0 100 = none
      exact getRandomPortAux_panic tcp udp rands pm h 0 99
    · intro hcnt
      have hc0 : ¬ count ≤ 0 := by omega
      unfold GetRandomPorts
      rw [if_neg hc0]
      obtain ⟨k, hk⟩ : ∃ k, count.toNat * 100 = k + 1 :=
        ⟨count.toNat * 100 - 1, by omega⟩
      rw [hk]
      exact getRandomPortsAux_panic count.toNat tcp udp rands pm h [] 0 k
        (by simp only [List.length_nil]; omega)

/-- Witness for C10: bounds 7 and 3 are stored unvalidated; with range
10..20 both entry points return (no panic); with the inverted range 20..10
both panic. -/
theorem C10_range_precondition_witness :
    NewPortManager 7 3 = { minPort := 7, maxPort := 3, usedPorts := [] } ∧
    ((GetRandomPort (NewPortManager 10 20) (fun _ => true) (fun _ => true)
        (fun _ => 0)).isSome = true ∧
      (GetRandomPorts (NewPortManager 10 20) 2 (fun _ => true) (fun _ => true)
        (fun _ => 0)).isSome = true) ∧
    (GetRandomPort (NewPortManager 20 10) (fun _ => true) (fun _ => true)
        (fun _ => 0) = none ∧
      GetRandomPorts (NewPortManager 20 10) 2 (fun _ => true) (fun _ => true)
        (fun _ => 0) = none) :=
  ⟨(C10_range_precondition (fun _ => true) (fun _ => true) (fun _ => 0) 2).1 7 3,
   (C10_range_precondition (fun _ => true) (fun _ => true) (fun _ => 0) 2).2.1
      (NewPortManager 10 20) (by decide),
   ((C10_range_precondition (fun _ => true) (fun _ => true) (fun _ => 0) 2).2.2
      (NewPortManager 20 10) (by decide)).1,
   ((C10_range_precondition (fun _ => true) (fun _ => true) (fun _ => 0) 2).2.2
      (NewPortManager 20 10) (by decide)).2 (by decide)⟩

/-! The registry's map operations. -/

theorem mapLookup_mapInsert_self (m : List (String × Int)) (k : String) (v : Int) :
    mapLookup (mapInsert m k v) k = some v := by
  induction m with
  | nil =>
    unfold mapInsert mapLookup
    rw [if_pos rfl]
  | cons kv rest ih =>
    obtain ⟨k0, v0⟩ := kv
    unfold mapInsert
    by_cases hk : k0 = k
    · rw [if_pos hk]
      unfold mapLookup
      rw [if_pos hk]
    · rw [if_neg hk]
      unfold mapLookup
      rw [if_neg hk]
      exact ih

theorem mapLookup_mapErase_self (m : List (String × Int)) (k : String) :
    mapLookup (mapErase m k) k = none := by
  induction m with
  | nil => rfl
  | cons kv rest ih =>
    obtain ⟨k0, v0⟩ := kv
    unfold mapErase
    by_cases hk : k0 = k
    · rw [if_pos hk]
      exact ih
    · rw [if_neg hk]
      unfold mapLookup
      rw [if_neg hk]
      exact ih

/-- C5: for a non-empty name and a port in 1..65535, SetAppPort succeeds,
an immediate GetAppPort returns the port, and after a synchronous flush a
fresh instance that loads the flushed file still returns it. -/
theorem C5_set_get_persist (s : AppPortStorage) (name : String) (port ts : Int)
    (hname : name ≠ "") (hlo : 1 ≤ port) (hhi : port ≤ 65535) :
    ∃ s', SetAppPort s name port = .ok s' ∧
      GetAppPort s' name = .ok port ∧
      ∀ ts' : Int, ∃ s'',
        LoadFromFile NewAppPortStorage (SyncToFile s' ts) ts' =
          .ok (s'', SyncToFile s' ts) ∧
        GetAppPort s'' name = .ok port := by
  refine ⟨{ s with appPorts := mapInsert s.appPorts name port }, ?_, ?_, ?_⟩
  · unfold SetAppPort
    rw [if_neg hname, if_neg (by simp only [Bool.or_eq_true, decide_eq_true_eq]; omega)]
  · unfold GetAppPort
    rw [if_neg hname, mapLookup_mapInsert_self]
  · intro ts'
    refine ⟨{ NewAppPortStorage with appPorts := mapInsert s.appPorts name port }, rfl, ?_⟩
    unfold GetAppPort
    rw [if_neg hname, mapLookup_mapInsert_self]

/-- Witness for C5: set name "svc" to port 12345 on the empty registry,
flush at time 7, reload into a fresh instance. -/
theorem C5_set_get_persist_witness :
    ∃ s', SetAppPort NewAppPortStorage "svc" 12345 = .ok s' ∧
      GetAppPort s' "svc" = .ok 12345 ∧
      ∀ ts' : Int, ∃ s'',
        LoadFromFile NewAppPortStorage (SyncToFile s' 7) ts' =
          .ok (s'', SyncToFile s' 7) ∧
        GetAppPort s'' "svc" = .ok 12345 :=
  C5_set_get_persist NewAppPortStorage "svc" 12345 7
    (by decide) (by decide) (by decide)

/-- C6: DeleteAppPort rejects the empty name and an unmapped name with the
matching errors; on a mapped name it removes the entry and synchronously
flushes, so the returned file is the snapshot of the shrunken map, a
subsequent GetAppPort is a not-found error, and even a fresh instance
loading that file (the simulated crash) no longer sees the name. -/
theorem C6_DeleteAppPort (s : AppPortStorage) (ts : Int) :
    (DeleteAppPort s "" ts = .error .emptyName) ∧
    (∀ name : String, name ≠ "" → mapLookup s.appPorts name = none →
        DeleteAppPort s name ts = .error (.notFound name)) ∧
    (∀ (name : String) (p : Int), name ≠ "" → mapLookup s.appPorts name = some p →
        ∃ s', DeleteAppPort s name ts = .ok (s', saveToFile s' ts) ∧
          s'.appPorts = mapErase s.appPorts name ∧
          GetAppPort s' name = .error (.notFound name) ∧
          ∀ ts' : Int, ∃ s'',
            LoadFromFile NewAppPortStorage (saveToFile s' ts) ts' =
              .ok (s'', saveToFile s' ts) ∧
            GetAppPort s'' name = .error (.notFound name)) := by
  refine ⟨rfl, ?_, ?_⟩
  · intro name hname hnone
    unfold DeleteAppPort
    rw [if_neg hname, hnone]
  · intro name p hname hp
    unfold DeleteAppPort
    rw [if_neg hname, hp]
    refine ⟨{ s with appPorts := mapErase s.appPorts name }, rfl, rfl, ?_, ?_⟩
    · unfold GetAppPort
      rw [if_neg hname, mapLookup_mapErase_self]
    · intro ts'
      refine ⟨{ NewAppPortStorage with appPorts := mapErase s.appPorts name }, rfl, ?_⟩
      unfold GetAppPort
      rw [if_neg hname, mapLookup_mapErase_self]

/-- Witness for C6 on the registry mapping "app" to 80: deleting "" and
the unmapped "zzz" fail, deleting "app" flushes and is gone after a fresh
load of the flushed file. -/
theorem C6_DeleteAppPort_witness :
    (DeleteAppPort { appPorts := [("app", 80)], syncLoops := 0 } "" 3 =
        .error .emptyName) ∧
    (DeleteAppPort { appPorts := [("app", 80)], syncLoops := 0 } "zzz" 3 =
        .error (.notFound "zzz")) ∧
    ∃ s', DeleteAppPort { appPorts := [("app", 80)], syncLoops := 0 } "app" 3 =
        .ok (s', saveToFile s' 3) ∧
      s'.appPorts = mapErase [("app", 80)] "app" ∧
      GetAppPort s' "app" = .error (.notFound "app") ∧
      ∀ ts' : Int, ∃ s'',
        LoadFromFile NewAppPortStorage (saveToFile s' 3) ts' =
          .ok (s'', saveToFile s' 3) ∧
        GetAppPort s'' "app" = .error (.notFound "app") :=
  ⟨(C6_DeleteAppPort { appPorts := [("app", 80)], syncLoops := 0 } 3).1,
   (C6_DeleteAppPort { appPorts := [("app", 80)], syncLoops := 0 } 3).2.1 "zzz"
      (by decide) (by decide),
   (C6_DeleteAppPort { appPorts := [("app", 80)], syncLoops := 0 } 3).2.2 "app" 80
      (by decide) (by decide)⟩

/-- C7: LoadFromFile succeeds in every non-corrupt case — an absent file is
bootstrapped by writing the empty snapshot with the in-memory map left
empty (fresh instance), an empty file is accepted with the map left empty,
a snapshot whose map field is null becomes the empty map, and a snapshot
with a map replaces the in-memory map wholesale. -/
theorem C7_LoadFromFile (ts : Int) :
    (LoadFromFile NewAppPortStorage .absent ts =
        .ok (NewAppPortStorage,
          .snapshot { appPorts := some [], timestamp := ts, version := "1.0" })) ∧
    (LoadFromFile NewAppPortStorage .empty ts = .ok (NewAppPortStorage, .empty)) ∧
    (∀ (s : AppPortStorage) (d : PortData), d.appPorts = none →
        LoadFromFile s (.snapshot d) ts =
          .ok ({ s with appPorts := [] }, .snapshot d)) ∧
    (∀ (s : AppPortStorage) (d : PortData) (m : List (String × Int)),
        d.appPorts = some m →
        LoadFromFile s (.snapshot d) ts =
          .ok ({ s with appPorts := m }, .snapshot d)) := by
  refine ⟨rfl, rfl, ?_, ?_⟩
  · intro s d h
    simp [LoadFromFile, h]
  · intro s d m h
    simp [LoadFromFile, h]

/-- Witness for C7 at time 5, exercising all four cases on concrete
snapshots. -/
theorem C7_LoadFromFile_witness :
    (LoadFromFile NewAppPortStorage .absent 5 =
        .ok (NewAppPortStorage,
          .snapshot { appPorts := some [], timestamp := 5, version := "1.0" })) ∧
    (LoadFromFile NewAppPortStorage .empty 5 = .ok (NewAppPortStorage, .empty)) ∧
    (LoadFromFile { appPorts := [("old", 1)], syncLoops := 0 }
        (.snapshot { appPorts := none, timestamp := 9, version := "1.0" }) 5 =
      .ok ({ appPorts := [], syncLoops := 0 },
        .snapshot { appPorts := none, timestamp := 9, version := "1.0" })) ∧
    (LoadFromFile { appPorts := [("old", 1)], syncLoops := 0 }
        (.snapshot { appPorts := some [("svc", 12345)], timestamp := 9, version := "1.0" }) 5 =
      .ok ({ appPorts := [("svc", 12345)], syncLoops := 0 },
        .snapshot { appPorts := some [("svc", 12345)], timestamp := 9, version := "1.0" })) :=
  ⟨(C7_LoadFromFile 5).1,
   (C7_LoadFromFile 5).2.1,
   (C7_LoadFromFile 5).2.2.1 { appPorts := [("old", 1)], syncLoops := 0 }
      { appPorts := none, timestamp := 9, version := "1.0" } rfl,
   (C7_LoadFromFile 5).2.2.2 { appPorts := [("old", 1)], syncLoops := 0 }
      { appPorts := some [("svc", 12345)], timestamp := 9, version := "1.0" }
      [("svc", 12345)] rfl⟩

end Themis
